import Mathlib

/-!
Shallow embedding of the LinguaWeaver server (video catalog and translation
lifecycle manager).  The database is modelled as an explicit state value
holding the rows of the `videos` and `translations` tables together with the
serial-id counters; every handler from `src/server/src/handlers` becomes a
pure function from an input and the current state to a result and the next
state.  Timestamps are natural numbers (milliseconds); the SQL `now()` of a
mutation is passed in as an explicit `now` argument.  Numeric columns are
rationals where the source uses JavaScript numbers.
-/

/-- The fixed supported-language set from `schema.ts` (`supportedLanguagesSchema`). -/
inductive Lang where
  | en | es | fr | de | it | pt | ru | ja | ko | zh | ar | hi
deriving DecidableEq, Repr

/-- String code of a language, as stored in the database enum. -/
def Lang.code : Lang → String
  | .en => "en" | .es => "es" | .fr => "fr" | .de => "de" | .it => "it" | .pt => "pt"
  | .ru => "ru" | .ja => "ja" | .ko => "ko" | .zh => "zh" | .ar => "ar" | .hi => "hi"

/-- Parsing of a raw language string against the fixed supported set
(the validation `z.enum` performs on the wire format). -/
def parseLang (s : String) : Option Lang :=
  if s = "en" then some .en
  else if s = "es" then some .es
  else if s = "fr" then some .fr
  else if s = "de" then some .de
  else if s = "it" then some .it
  else if s = "pt" then some .pt
  else if s = "ru" then some .ru
  else if s = "ja" then some .ja
  else if s = "ko" then some .ko
  else if s = "zh" then some .zh
  else if s = "ar" then some .ar
  else if s = "hi" then some .hi
  else none

/-- Translation status enum from `schema.ts` (`translationStatusSchema`). -/
inductive TranslationStatus where
  | pending | processing | completed | failed
deriving DecidableEq, Repr

/-- A row of the `videos` table (`db/schema.ts`, `videosTable`). -/
structure Video where
  id : Nat
  filename : String
  original_filename : String
  file_path : String
  file_size : Rat
  duration : Option Rat
  mime_type : String
  original_language : Option Lang
  uploaded_at : Nat
  updated_at : Nat
deriving DecidableEq, Repr

/-- A row of the `translations` table (`db/schema.ts`, `translationsTable`). -/
structure Translation where
  id : Nat
  video_id : Nat
  target_language : Lang
  status : TranslationStatus
  translated_audio_path : Option String
  transcript_original : Option String
  transcript_translated : Option String
  progress_percentage : Nat
  error_message : Option String
  started_at : Option Nat
  completed_at : Option Nat
  created_at : Nat
  updated_at : Nat
deriving DecidableEq, Repr

/-- A translation joined with its owning video (`translationWithVideoSchema`). -/
structure TranslationWithVideo extends Translation where
  video : Video
deriving DecidableEq, Repr

/-- The database state: the rows of both tables plus the serial counters. -/
structure DB where
  videos : List Video
  translations : List Translation
  nextVideoId : Nat
  nextTranslationId : Nat
deriving DecidableEq, Repr

/-- Validated input of `uploadVideo` (`uploadVideoInputSchema` after parsing). -/
structure UploadVideoInput where
  filename : String
  original_filename : String
  file_path : String
  file_size : Rat
  duration : Option Rat
  mime_type : String
  original_language : Option Lang
deriving DecidableEq, Repr

/-- Raw wire input of `uploadVideo`, before zod validation: the language is an
arbitrary string and the numeric constraints have not been checked yet. -/
structure RawUploadVideoInput where
  filename : String
  original_filename : String
  file_path : String
  file_size : Rat
  duration : Option Rat
  mime_type : String
  original_language : Option String
deriving DecidableEq, Repr

/-- Validation of the nullable `duration` field: absent passes, present must be
strictly positive (`z.number().positive().nullable()`). -/
def parseDurationField : Option Rat → Option (Option Rat)
  | none => some none
  | some d => if 0 < d then some (some d) else none

/-- Validation of the nullable `original_language` field: absent passes, present
must be in the fixed supported set (`supportedLanguagesSchema.nullable()`). -/
def parseLanguageField : Option String → Option (Option Lang)
  | none => some none
  | some s => (parseLang s).map some

/-- Zod validation of `uploadVideoInputSchema`: `file_size` strictly positive,
`duration` strictly positive when present, `original_language` in the fixed set
when present.  Returns the typed input on success, `none` on violation. -/
def parseUploadVideoInput (raw : RawUploadVideoInput) : Option UploadVideoInput :=
  if 0 < raw.file_size then
    match parseDurationField raw.duration with
    | none => none
    | some d =>
      match parseLanguageField raw.original_language with
      | none => none
      | some l =>
          some { filename := raw.filename, original_filename := raw.original_filename,
                 file_path := raw.file_path, file_size := raw.file_size,
                 duration := d, mime_type := raw.mime_type, original_language := l }
  else none

/-- The videos row inserted by `uploadVideo`: the input's columns, a fresh
serial id, both timestamps defaulted to now. -/
def newVideo (input : UploadVideoInput) (now : Nat) (db : DB) : Video :=
  { id := db.nextVideoId, filename := input.filename,
    original_filename := input.original_filename, file_path := input.file_path,
    file_size := input.file_size, duration := input.duration,
    mime_type := input.mime_type, original_language := input.original_language,
    uploaded_at := now, updated_at := now }

/-- Handler `uploadVideo` (`handlers/upload_video.ts`): insert a videos row with
a fresh serial id and both timestamps defaulted to now, returning the row. -/
def uploadVideo (input : UploadVideoInput) (now : Nat) (db : DB) : Video × DB :=
  (newVideo input now db,
   { db with videos := db.videos ++ [newVideo input now db],
             nextVideoId := db.nextVideoId + 1 })

/-- The `uploadVideo` endpoint as exposed by the router (`index.ts`): zod
validation of the raw input first, the insert only if validation passes.
On a validation failure nothing is persisted. -/
def registerVideo (raw : RawUploadVideoInput) (now : Nat) (db : DB) : Option Video × DB :=
  match parseUploadVideoInput raw with
  | none => (none, db)
  | some input =>
      let p := uploadVideo input now db
      (some p.1, p.2)

/-- Handler `getVideoById` (`handlers/get_video_by_id.ts`): select the videos
row with the given id, `none` when absent. -/
def getVideoById (video_id : Nat) (db : DB) : Option Video :=
  db.videos.find? (fun v => decide (v.id = video_id))

/-- Descending order on videos by `uploaded_at` (the `desc(videosTable.uploaded_at)`
order of `getVideos`). -/
def videoDesc (a b : Video) : Prop := b.uploaded_at ≤ a.uploaded_at

instance : DecidableRel videoDesc := fun a b => Nat.decLe b.uploaded_at a.uploaded_at

instance : IsTotal Video videoDesc := ⟨fun a b => Nat.le_total b.uploaded_at a.uploaded_at⟩

instance : IsTrans Video videoDesc := ⟨fun _ _ _ h1 h2 => Nat.le_trans h2 h1⟩

/-- Descending order on translations by `created_at` (the
`desc(translationsTable.created_at)` order of the translation queries). -/
def transDesc (a b : Translation) : Prop := b.created_at ≤ a.created_at

instance : DecidableRel transDesc := fun a b => Nat.decLe b.created_at a.created_at

instance : IsTotal Translation transDesc := ⟨fun a b => Nat.le_total b.created_at a.created_at⟩

instance : IsTrans Translation transDesc := ⟨fun _ _ _ h1 h2 => Nat.le_trans h2 h1⟩

/-- Descending order on joined records by `created_at`. -/
def twvDesc (a b : TranslationWithVideo) : Prop := b.created_at ≤ a.created_at

/-- Handler `getVideos` (`handlers/get_videos.ts`): all videos ordered by
`uploaded_at` descending (a stable sort models the SQL `ORDER BY`). -/
def getVideos (db : DB) : List Video :=
  List.insertionSort videoDesc db.videos

/-- Input of `createTranslation` (`createTranslationInputSchema`). -/
structure CreateTranslationInput where
  video_id : Nat
  target_language : Lang
deriving DecidableEq, Repr

/-- The two business errors `createTranslation` can throw, carrying the data
the source interpolates into the thrown message. -/
inductive CreateTranslationError where
  | videoNotFound (video_id : Nat)
  | duplicateTranslation (target_language : Lang) (video_id : Nat)
deriving DecidableEq, Repr

/-- The exact message strings thrown by `handlers/create_translation.ts`. -/
def CreateTranslationError.message : CreateTranslationError → String
  | .videoNotFound i => "Video with ID " ++ toString i ++ " not found"
  | .duplicateTranslation l i =>
      "Translation to " ++ l.code ++ " already exists for video " ++ toString i

/-- The translations row inserted by `createTranslation`: status pending,
progress 0, all nullable columns null, both timestamps now. -/
def newTranslation (input : CreateTranslationInput) (now : Nat) (db : DB) : Translation :=
  { id := db.nextTranslationId, video_id := input.video_id,
    target_language := input.target_language, status := TranslationStatus.pending,
    translated_audio_path := none, transcript_original := none,
    transcript_translated := none, progress_percentage := 0,
    error_message := none, started_at := none, completed_at := none,
    created_at := now, updated_at := now }

/-- Handler `createTranslation` (`handlers/create_translation.ts`): check the
referenced video exists, check no translation with the same
(video_id, target_language) exists, then insert a pending row with progress 0
and all nullable fields null.  A thrown error leaves the state unchanged. -/
def createTranslation (input : CreateTranslationInput) (now : Nat) (db : DB) :
    Except CreateTranslationError Translation × DB :=
  if (db.videos.find? (fun v => decide (v.id = input.video_id))).isNone then
    (Except.error (CreateTranslationError.videoNotFound input.video_id), db)
  else if db.translations.any (fun t =>
      decide (t.video_id = input.video_id ∧ t.target_language = input.target_language)) then
    (Except.error
      (CreateTranslationError.duplicateTranslation input.target_language input.video_id), db)
  else
    (Except.ok (newTranslation input now db),
     { db with translations := db.translations ++ [newTranslation input now db],
               nextTranslationId := db.nextTranslationId + 1 })

/-- Input of `updateTranslationProgress` (`updateTranslationProgressInputSchema`).
Each updatable field is optional; for the nullable columns the payload
distinguishes absent (leave untouched) from explicit null (clear), modelled as
`Option (Option _)`. -/
structure UpdateTranslationProgressInput where
  translation_id : Nat
  status : Option TranslationStatus
  progress_percentage : Option Nat
  translated_audio_path : Option (Option String)
  transcript_original : Option (Option String)
  transcript_translated : Option (Option String)
  error_message : Option (Option String)
  started_at : Option (Option Nat)
  completed_at : Option (Option Nat)
deriving DecidableEq, Repr

/-- The `SET` clause built by `handlers/update_translation_progress.ts`: every
provided field overwrites the stored one, omitted fields keep their value, and
`updated_at` is unconditionally set to now. -/
def applyUpdate (input : UpdateTranslationProgressInput) (now : Nat) (t : Translation) :
    Translation :=
  { t with
    status := input.status.getD t.status,
    progress_percentage := input.progress_percentage.getD t.progress_percentage,
    translated_audio_path := input.translated_audio_path.getD t.translated_audio_path,
    transcript_original := input.transcript_original.getD t.transcript_original,
    transcript_translated := input.transcript_translated.getD t.transcript_translated,
    error_message := input.error_message.getD t.error_message,
    started_at := input.started_at.getD t.started_at,
    completed_at := input.completed_at.getD t.completed_at,
    updated_at := now }

/-- Handler `updateTranslationProgress` (`handlers/update_translation_progress.ts`):
`UPDATE ... WHERE id = translation_id RETURNING`: rows with the matching id are
rewritten through `applyUpdate`; the updated row is returned, or `none` (and an
unchanged state) when no row matches. -/
def updateTranslationProgress (input : UpdateTranslationProgressInput) (now : Nat)
    (db : DB) : Option Translation × DB :=
  let updated := db.translations.map (fun t =>
    if t.id = input.translation_id then applyUpdate input now t else t)
  match updated.find? (fun t => decide (t.id = input.translation_id)) with
  | none => (none, db)
  | some t => (some t, { db with translations := updated })

/-- The inner join of a translation with its owning video used by
`getAllTranslations` and `getTranslationById`: the row is kept only when a
videos row with `id = video_id` exists. -/
def joinWithVideo (db : DB) (t : Translation) : Option TranslationWithVideo :=
  (db.videos.find? (fun v => decide (v.id = t.video_id))).map
    (fun v => { toTranslation := t, video := v })

/-- Handler `getAllTranslations` (`handlers/get_all_translations.ts`): all
translations inner-joined with their video, ordered by `created_at` descending. -/
def getAllTranslations (db : DB) : List TranslationWithVideo :=
  (List.insertionSort transDesc db.translations).filterMap (joinWithVideo db)

/-- Handler `getTranslationById` (`handlers/get_translation_by_id.ts`): the
translation with the given id inner-joined with its video, `none` when the
translation is absent or its video is missing. -/
def getTranslationById (translation_id : Nat) (db : DB) : Option TranslationWithVideo :=
  (db.translations.find? (fun t => decide (t.id = translation_id))).bind (joinWithVideo db)

/-- Handler `getTranslationsByVideo` (`handlers/get_translations_by_video.ts`):
the translations of one video, ordered by `created_at` descending. -/
def getTranslationsByVideo (video_id : Nat) (db : DB) : List Translation :=
  List.insertionSort transDesc
    (db.translations.filter (fun t => decide (t.video_id = video_id)))

/-- Success test for an `Except` result. -/
def exceptOk {ε α : Type} : Except ε α → Bool
  | Except.ok _ => true
  | Except.error _ => false

instance {ε α : Type} [DecidableEq ε] [DecidableEq α] : DecidableEq (Except ε α) := fun x y =>
  match x, y with
  | Except.ok a, Except.ok b =>
      if h : a = b then isTrue (by rw [h]) else isFalse (by intro hc; cases hc; exact h rfl)
  | Except.error a, Except.error b =>
      if h : a = b then isTrue (by rw [h]) else isFalse (by intro hc; cases hc; exact h rfl)
  | Except.ok _, Except.error _ => isFalse (by intro hc; cases hc)
  | Except.error _, Except.ok _ => isFalse (by intro hc; cases hc)

/-! Concrete sample data, mirroring the fixtures of the test suite. -/

/-- Sample videos row (the `testVideoInput` fixture). -/
def sampleVideo : Video :=
  { id := 1, filename := "test-video.mp4", original_filename := "original-test-video.mp4",
    file_path := "/uploads/test-video.mp4", file_size := 1024000, duration := some 120,
    mime_type := "video/mp4", original_language := some Lang.en,
    uploaded_at := 100, updated_at := 100 }

/-- Sample pending translation of `sampleVideo` into Spanish. -/
def sampleTranslation : Translation :=
  { id := 1, video_id := 1, target_language := Lang.es, status := TranslationStatus.pending,
    translated_audio_path := none, transcript_original := none,
    transcript_translated := none, progress_percentage := 0, error_message := none,
    started_at := none, completed_at := none, created_at := 200, updated_at := 200 }

/-- A translation whose `video_id` matches no stored video. -/
def orphanTranslation : Translation :=
  { id := 2, video_id := 9, target_language := Lang.fr, status := TranslationStatus.pending,
    translated_audio_path := none, transcript_original := none,
    transcript_translated := none, progress_percentage := 0, error_message := none,
    started_at := none, completed_at := none, created_at := 300, updated_at := 300 }

/-- Empty database. -/
def emptyDB : DB := { videos := [], translations := [], nextVideoId := 1, nextTranslationId := 1 }

/-- Database holding `sampleVideo` and no translations. -/
def videoOnlyDB : DB :=
  { videos := [sampleVideo], translations := [], nextVideoId := 2, nextTranslationId := 1 }

/-- Database holding `sampleVideo` and `sampleTranslation`. -/
def sampleDB : DB :=
  { videos := [sampleVideo], translations := [sampleTranslation],
    nextVideoId := 2, nextTranslationId := 2 }

/-- Database additionally holding `orphanTranslation`. -/
def orphanDB : DB :=
  { videos := [sampleVideo], translations := [sampleTranslation, orphanTranslation],
    nextVideoId := 2, nextTranslationId := 3 }

/-! Shared helper lemmas. -/

/-- Updating never changes a row's id. -/
theorem applyUpdate_id (input : UpdateTranslationProgressInput) (now : Nat)
    (t : Translation) : (applyUpdate input now t).id = t.id := rfl

/-- Finding the matching id in the rewritten table is finding it in the old
table and rewriting the row found. -/
theorem find?_map_applyUpdate (input : UpdateTranslationProgressInput) (now : Nat) :
    ∀ l : List Translation,
      (l.map (fun u => if u.id = input.translation_id then applyUpdate input now u else u)).find?
          (fun u => decide (u.id = input.translation_id))
        = (l.find? (fun u => decide (u.id = input.translation_id))).map
            (applyUpdate input now)
  | [] => rfl
  | u :: l => by
    by_cases h : u.id = input.translation_id
    · simp [List.find?_cons, h, applyUpdate_id]
    · simp [List.find?_cons, h, find?_map_applyUpdate input now l]

/-- Evaluation of `updateTranslationProgress` when a row with the id exists. -/
theorem updateTranslationProgress_eq (input : UpdateTranslationProgressInput)
    (now : Nat) (db : DB) (t : Translation)
    (h : db.translations.find? (fun u => decide (u.id = input.translation_id)) = some t) :
    updateTranslationProgress input now db
      = (some (applyUpdate input now t),
         { db with translations := db.translations.map (fun u =>
             if u.id = input.translation_id then applyUpdate input now u else u) }) := by
  simp only [updateTranslationProgress]
  rw [find?_map_applyUpdate, h]
  rfl

/-- A successful join returns the stored translation paired with a stored video
whose id is the translation's `video_id`. -/
theorem joinWithVideo_eq_some {db : DB} {t : Translation} {r : TranslationWithVideo}
    (h : joinWithVideo db t = some r) :
    r.toTranslation = t ∧ r.video.id = t.video_id ∧ r.video ∈ db.videos := by
  unfold joinWithVideo at h
  cases hf : db.videos.find? (fun v => decide (v.id = t.video_id)) with
  | none => rw [hf] at h; simp at h
  | some v =>
    rw [hf] at h
    simp only [Option.map_some'] at h
    have hp := List.find?_some hf
    have hm := List.mem_of_find?_eq_some hf
    simp only [decide_eq_true_eq] at hp
    cases h
    exact ⟨rfl, hp, hm⟩

/-- The join drops a translation whose video does not exist. -/
theorem joinWithVideo_eq_none {db : DB} {t : Translation}
    (h : ∀ v ∈ db.videos, v.id ≠ t.video_id) : joinWithVideo db t = none := by
  unfold joinWithVideo
  have hf : db.videos.find? (fun v => decide (v.id = t.video_id)) = none := by
    simp only [List.find?_eq_none, decide_eq_true_eq]
    exact h
  rw [hf]
  rfl

/-! Claim theorems. -/

/-- C2: for every video id with no existing videos row and every target
language, `createTranslation` fails with the referential video-not-found error
naming the id, and the database state is unchanged (no translations row is
inserted). -/
theorem createTranslation_missing_video (input : CreateTranslationInput) (now : Nat)
    (db : DB) (h : ∀ v ∈ db.videos, v.id ≠ input.video_id) :
    createTranslation input now db
      = (Except.error (CreateTranslationError.videoNotFound input.video_id), db) := by
  have hf : db.videos.find? (fun v => decide (v.id = input.video_id)) = none := by
    simp only [List.find?_eq_none, decide_eq_true_eq]
    exact h
  simp [createTranslation, hf]

/-- C2 witness: creating a translation for video id 999 on a database whose only
video has id 1 fails with the referential error and leaves the state unchanged. -/
theorem createTranslation_missing_video_witness :
    (∀ v ∈ sampleDB.videos, v.id ≠ 999)
      ∧ createTranslation ⟨999, Lang.es⟩ 400 sampleDB
          = (Except.error (CreateTranslationError.videoNotFound 999), sampleDB) :=
  ⟨by decide, createTranslation_missing_video ⟨999, Lang.es⟩ 400 sampleDB (by decide)⟩

/-- C3: whenever `createTranslation` succeeds, the returned translation has
status pending, progress 0, and all nullable result fields null. -/
theorem createTranslation_initial_row (input : CreateTranslationInput) (now : Nat)
    (db db' : DB) (t : Translation)
    (h : createTranslation input now db = (Except.ok t, db')) :
    t.status = TranslationStatus.pending ∧ t.progress_percentage = 0
      ∧ t.translated_audio_path = none ∧ t.transcript_original = none
      ∧ t.transcript_translated = none ∧ t.error_message = none
      ∧ t.started_at = none ∧ t.completed_at = none := by
  rw [createTranslation] at h
  split_ifs at h
  · exact absurd h (by simp)
  · exact absurd h (by simp)
  · have ht : newTranslation input now db = t := by
      have h1 := congrArg Prod.fst h
      simpa using h1
    rw [← ht]
    exact ⟨rfl, rfl, rfl, rfl, rfl, rfl, rfl, rfl⟩

/-- C3 witness: the translation created on the sample video-only database is the
pending, zero-progress, all-null row. -/
theorem createTranslation_initial_row_witness :
    (createTranslation ⟨1, Lang.es⟩ 200 videoOnlyDB = (Except.ok sampleTranslation, sampleDB))
      ∧ sampleTranslation.status = TranslationStatus.pending
      ∧ sampleTranslation.progress_percentage = 0
      ∧ sampleTranslation.translated_audio_path = none :=
  ⟨by decide,
   (createTranslation_initial_row ⟨1, Lang.es⟩ 200 videoOnlyDB sampleDB sampleTranslation
      (by decide)).1,
   (createTranslation_initial_row ⟨1, Lang.es⟩ 200 videoOnlyDB sampleDB sampleTranslation
      (by decide)).2.1,
   (createTranslation_initial_row ⟨1, Lang.es⟩ 200 videoOnlyDB sampleDB sampleTranslation
      (by decide)).2.2.1⟩

/-- C5: on an id with no stored translation, `updateTranslationProgress`
returns the explicit not-found result `none` and the state is unchanged. -/
theorem updateTranslationProgress_missing (input : UpdateTranslationProgressInput)
    (now : Nat) (db : DB) (h : ∀ u ∈ db.translations, u.id ≠ input.translation_id) :
    updateTranslationProgress input now db = (none, db) := by
  have hf : db.translations.find? (fun u => decide (u.id = input.translation_id)) = none := by
    simp only [List.find?_eq_none, decide_eq_true_eq]
    exact h
  simp only [updateTranslationProgress]
  rw [find?_map_applyUpdate, hf]
  rfl

/-- Update input setting only the status, aimed at a nonexistent id 99999. -/
def missingUpdateInput : UpdateTranslationProgressInput :=
  { translation_id := 99999, status := some TranslationStatus.processing,
    progress_percentage := none, translated_audio_path := none,
    transcript_original := none, transcript_translated := none,
    error_message := none, started_at := none, completed_at := none }

/-- C5 witness: updating translation id 99999 on the sample database returns
`none` and leaves the database unchanged. -/
theorem updateTranslationProgress_missing_witness :
    (∀ u ∈ sampleDB.translations, u.id ≠ missingUpdateInput.translation_id)
      ∧ updateTranslationProgress missingUpdateInput 300 sampleDB = (none, sampleDB) :=
  ⟨by decide, updateTranslationProgress_missing missingUpdateInput 300 sampleDB (by decide)⟩

/-- C4: on an existing translation, `updateTranslationProgress` returns the row
rewritten by `applyUpdate`: every provided field overwrites the stored value
(an explicit null clears it), every omitted field keeps its prior value,
`updated_at` is set to now unconditionally, the identity and creation columns
are untouched, and every stored row with a different id survives unchanged. -/
theorem updateTranslationProgress_frame (input : UpdateTranslationProgressInput)
    (now : Nat) (db : DB) (t : Translation)
    (h : db.translations.find? (fun u => decide (u.id = input.translation_id)) = some t) :
    (updateTranslationProgress input now db).1 = some (applyUpdate input now t)
      ∧ (applyUpdate input now t).status = input.status.getD t.status
      ∧ (applyUpdate input now t).progress_percentage
          = input.progress_percentage.getD t.progress_percentage
      ∧ (applyUpdate input now t).translated_audio_path
          = input.translated_audio_path.getD t.translated_audio_path
      ∧ (applyUpdate input now t).transcript_original
          = input.transcript_original.getD t.transcript_original
      ∧ (applyUpdate input now t).transcript_translated
          = input.transcript_translated.getD t.transcript_translated
      ∧ (applyUpdate input now t).error_message = input.error_message.getD t.error_message
      ∧ (applyUpdate input now t).started_at = input.started_at.getD t.started_at
      ∧ (applyUpdate input now t).completed_at = input.completed_at.getD t.completed_at
      ∧ (applyUpdate input now t).updated_at = now
      ∧ (applyUpdate input now t).id = t.id
      ∧ (applyUpdate input now t).video_id = t.video_id
      ∧ (applyUpdate input now t).target_language = t.target_language
      ∧ (applyUpdate input now t).created_at = t.created_at
      ∧ ∀ u ∈ db.translations, u.id ≠ input.translation_id →
          u ∈ (updateTranslationProgress input now db).2.translations := by
  rw [updateTranslationProgress_eq input now db t h]
  refine ⟨rfl, rfl, rfl, rfl, rfl, rfl, rfl, rfl, rfl, rfl, rfl, rfl, rfl, rfl, ?_⟩
  intro u hu hne
  exact List.mem_map.mpr ⟨u, hu, by simp [hne]⟩

/-- Update input providing status, progress and an explicit-null clear while
omitting the transcript fields. -/
def patchUpdateInput : UpdateTranslationProgressInput :=
  { translation_id := 1, status := some TranslationStatus.processing,
    progress_percentage := some 50, translated_audio_path := some none,
    transcript_original := none, transcript_translated := none,
    error_message := none, started_at := some (some 310), completed_at := none }

/-- C4 witness: the partial update of the sample translation rewrites exactly
the provided fields and refreshes `updated_at`. -/
theorem updateTranslationProgress_frame_witness :
    (sampleDB.translations.find?
        (fun u => decide (u.id = patchUpdateInput.translation_id)) = some sampleTranslation)
      ∧ (updateTranslationProgress patchUpdateInput 320 sampleDB).1
          = some (applyUpdate patchUpdateInput 320 sampleTranslation)
      ∧ (applyUpdate patchUpdateInput 320 sampleTranslation).updated_at = 320 :=
  ⟨by decide,
   (updateTranslationProgress_frame patchUpdateInput 320 sampleDB sampleTranslation
      (by decide)).1,
   (updateTranslationProgress_frame patchUpdateInput 320 sampleDB sampleTranslation
      (by decide)).2.2.2.2.2.2.2.2.2.1⟩

/-- C6: `updateTranslationProgress` imposes no state-machine guard: whatever the
current status of the stored translation, any requested status value is accepted
and written. -/
theorem updateTranslationProgress_no_status_guard (input : UpdateTranslationProgressInput)
    (now : Nat) (db : DB) (t : Translation) (s : TranslationStatus)
    (h : db.translations.find? (fun u => decide (u.id = input.translation_id)) = some t)
    (hs : input.status = some s) :
    (updateTranslationProgress input now db).1 = some (applyUpdate input now t)
      ∧ (applyUpdate input now t).status = s := by
  rw [updateTranslationProgress_eq input now db t h]
  refine ⟨rfl, ?_⟩
  simp [applyUpdate, hs]

/-- A completed translation of the sample video. -/
def completedTranslation : Translation :=
  { id := 1, video_id := 1, target_language := Lang.es,
    status := TranslationStatus.completed,
    translated_audio_path := some "/outputs/translated-audio.mp3",
    transcript_original := some "Original transcript",
    transcript_translated := some "Transcripcion traducida",
    progress_percentage := 100, error_message := none,
    started_at := some 210, completed_at := some 250, created_at := 200, updated_at := 250 }

/-- Database whose only translation is already in the terminal completed state. -/
def completedDB : DB :=
  { videos := [sampleVideo], translations := [completedTranslation],
    nextVideoId := 2, nextTranslationId := 2 }

/-- Update input writing status pending onto a translation. -/
def pendingStatusInput : UpdateTranslationProgressInput :=
  { translation_id := 1, status := some TranslationStatus.pending,
    progress_percentage := none, translated_audio_path := none,
    transcript_original := none, transcript_translated := none,
    error_message := none, started_at := none, completed_at := none }

/-- C6 witness: a terminal completed translation accepts being reset to pending. -/
theorem updateTranslationProgress_no_status_guard_witness :
    (completedDB.translations.find?
        (fun u => decide (u.id = pendingStatusInput.translation_id)) = some completedTranslation)
      ∧ completedTranslation.status = TranslationStatus.completed
      ∧ (updateTranslationProgress pendingStatusInput 400 completedDB).1
          = some (applyUpdate pendingStatusInput 400 completedTranslation)
      ∧ (applyUpdate pendingStatusInput 400 completedTranslation).status
          = TranslationStatus.pending :=
  ⟨by decide, by decide,
   (updateTranslationProgress_no_status_guard pendingStatusInput 400 completedDB
      completedTranslation TranslationStatus.pending (by decide) (by decide)).1,
   (updateTranslationProgress_no_status_guard pendingStatusInput 400 completedDB
      completedTranslation TranslationStatus.pending (by decide) (by decide)).2⟩

/-- C1: in any state where the referenced video exists and some translation of
it into the requested language already exists — whatever that row's status or
origin — `createTranslation` fails with the duplicate error naming that
language and video id and leaves the state unchanged; and for any language the
video has no translation into, `createTranslation` succeeds. -/
theorem createTranslation_duplicate (input : CreateTranslationInput)
    (now now3 : Nat) (db : DB) (u : Translation) (lang2 : Lang)
    (hv : ∃ v ∈ db.videos, v.id = input.video_id)
    (hdup : u ∈ db.translations ∧ u.video_id = input.video_id
        ∧ u.target_language = input.target_language)
    (hno : ∀ w ∈ db.translations,
        ¬ (w.video_id = input.video_id ∧ w.target_language = lang2)) :
    createTranslation input now db
        = (Except.error (CreateTranslationError.duplicateTranslation
            input.target_language input.video_id), db)
      ∧ exceptOk (createTranslation ⟨input.video_id, lang2⟩ now3 db).1 = true := by
  obtain ⟨hu, huv, hul⟩ := hdup
  have h1 : ¬ ((db.videos.find? (fun v => decide (v.id = input.video_id))).isNone = true) := by
    intro hnone
    rw [Option.isNone_iff_eq_none, List.find?_eq_none] at hnone
    obtain ⟨v, hv1, hv2⟩ := hv
    exact absurd hv2 (by simpa using hnone v hv1)
  have hdupAny : (db.translations.any (fun w =>
      decide (w.video_id = input.video_id
        ∧ w.target_language = input.target_language))) = true := by
    rw [List.any_eq_true]
    exact ⟨u, hu, by simp [huv, hul]⟩
  have hnoAny : ¬ ((db.translations.any (fun w =>
      decide (w.video_id = input.video_id ∧ w.target_language = lang2))) = true) := by
    rw [List.any_eq_true]
    rintro ⟨w, hw, hwp⟩
    exact hno w hw (by simpa using hwp)
  constructor
  · simp only [createTranslation]
    rw [if_neg h1, if_pos hdupAny]
  · simp only [createTranslation]
    rw [if_neg h1, if_neg hnoAny]
    rfl

/-- C1 witness: in the database whose Spanish translation of the sample video
was inserted directly and already completed, creating Spanish again fails with
the duplicate error and creating French succeeds. -/
theorem createTranslation_duplicate_witness :
    (completedTranslation ∈ completedDB.translations
        ∧ completedTranslation.video_id = 1
        ∧ completedTranslation.target_language = Lang.es
        ∧ completedTranslation.status = TranslationStatus.completed)
      ∧ createTranslation ⟨1, Lang.es⟩ 500 completedDB
          = (Except.error (CreateTranslationError.duplicateTranslation Lang.es 1), completedDB)
      ∧ exceptOk (createTranslation ⟨1, Lang.fr⟩ 600 completedDB).1 = true :=
  ⟨by decide,
   (createTranslation_duplicate ⟨1, Lang.es⟩ 500 600 completedDB
      completedTranslation Lang.fr (by decide) (by decide) (by decide)).1,
   (createTranslation_duplicate ⟨1, Lang.es⟩ 500 600 completedDB
      completedTranslation Lang.fr (by decide) (by decide) (by decide)).2⟩

/-- C7: uploading a video and reading it back by the returned id yields exactly
the stored row, whose metadata columns equal the input; and reading any id that
matches no stored video yields the explicit not-found result `none`. -/
theorem registerVideo_roundtrip (input : UploadVideoInput) (now : Nat) (db : DB)
    (v : Video) (db' : DB)
    (hfresh : ∀ w ∈ db.videos, w.id ≠ db.nextVideoId)
    (hup : uploadVideo input now db = (v, db')) :
    getVideoById v.id db' = some v
      ∧ v.filename = input.filename ∧ v.original_filename = input.original_filename
      ∧ v.file_path = input.file_path ∧ v.file_size = input.file_size
      ∧ v.duration = input.duration ∧ v.mime_type = input.mime_type
      ∧ v.original_language = input.original_language
      ∧ ∀ x : Nat, (∀ w ∈ db.videos, w.id ≠ x) → getVideoById x db = none := by
  rw [uploadVideo] at hup
  simp only [Prod.mk.injEq] at hup
  obtain ⟨hv, hdb⟩ := hup
  subst hv
  subst hdb
  refine ⟨?_, rfl, rfl, rfl, rfl, rfl, rfl, rfl, ?_⟩
  · rw [getVideoById]
    show (db.videos ++ [newVideo input now db]).find? _ = _
    rw [List.find?_append]
    have h1 : db.videos.find?
        (fun w => decide (w.id = (newVideo input now db).id)) = none := by
      rw [List.find?_eq_none]
      intro w hw
      simp only [newVideo, decide_eq_true_eq]
      exact hfresh w hw
    rw [h1]
    simp
  · intro x hx
    rw [getVideoById, List.find?_eq_none]
    intro w hw
    simpa using hx w hw

/-- Valid upload input mirroring the test fixture. -/
def sampleUploadInput : UploadVideoInput :=
  { filename := "test-video.mp4", original_filename := "original-test-video.mp4",
    file_path := "/uploads/test-video.mp4", file_size := 1024000, duration := some 120,
    mime_type := "video/mp4", original_language := some Lang.en }

/-- C7 witness: uploading the sample input into the empty database and reading
back id 1 returns the stored row; reading id 42 of the empty database returns
`none`. -/
theorem registerVideo_roundtrip_witness :
    (uploadVideo sampleUploadInput 100 emptyDB
        = (sampleVideo, { videos := [sampleVideo], translations := [],
                          nextVideoId := 2, nextTranslationId := 1 }))
      ∧ getVideoById sampleVideo.id
          { videos := [sampleVideo], translations := [],
            nextVideoId := 2, nextTranslationId := 1 } = some sampleVideo
      ∧ getVideoById 42 emptyDB = none :=
  ⟨by decide,
   (registerVideo_roundtrip sampleUploadInput 100 emptyDB sampleVideo
      { videos := [sampleVideo], translations := [], nextVideoId := 2, nextTranslationId := 1 }
      (by decide) (by decide)).1,
   (registerVideo_roundtrip sampleUploadInput 100 emptyDB sampleVideo
      { videos := [sampleVideo], translations := [], nextVideoId := 2, nextTranslationId := 1 }
      (by decide) (by decide)).2.2.2.2.2.2.2.2 42 (by decide)⟩

/-- C9: an upload input violating a schema constraint (non-positive file size, a
present non-positive duration, or a present language outside the supported set)
is rejected by validation before any persistence: the result carries no video
and the database is unchanged. -/
theorem registerVideo_rejects_invalid (raw : RawUploadVideoInput) (now : Nat) (db : DB)
    (h : raw.file_size ≤ 0
       ∨ (∃ d, raw.duration = some d ∧ d ≤ 0)
       ∨ (∃ s, raw.original_language = some s ∧ parseLang s = none)) :
    registerVideo raw now db = (none, db) := by
  have hp : parseUploadVideoInput raw = none := by
    rw [parseUploadVideoInput]
    rcases h with h | ⟨d, hd, hd0⟩ | ⟨s, hs, hnone⟩
    · rw [if_neg (not_lt.mpr h)]
    · by_cases hfs : 0 < raw.file_size
      · rw [if_pos hfs, hd]
        simp [parseDurationField, not_lt.mpr hd0]
      · rw [if_neg hfs]
    · by_cases hfs : 0 < raw.file_size
      · rw [if_pos hfs]
        cases hpd : parseDurationField raw.duration with
        | none => rfl
        | some d => simp [parseLanguageField, hs, hnone]
      · rw [if_neg hfs]
  simp [registerVideo, hp]

/-- Raw upload input with a non-positive file size. -/
def badSizeInput : RawUploadVideoInput :=
  { filename := "bad.mp4", original_filename := "bad.mp4", file_path := "/uploads/bad.mp4",
    file_size := 0, duration := none, mime_type := "video/mp4",
    original_language := none }

/-- Raw upload input whose language string is outside the supported set. -/
def badLangInput : RawUploadVideoInput :=
  { filename := "bad2.mp4", original_filename := "bad2.mp4", file_path := "/uploads/bad2.mp4",
    file_size := 1000, duration := some 60, mime_type := "video/mp4",
    original_language := some "xx" }

/-- C9 witness: a zero file size and an unsupported language string are both
rejected with the sample database left unchanged. -/
theorem registerVideo_rejects_invalid_witness :
    (badSizeInput.file_size ≤ 0)
      ∧ registerVideo badSizeInput 700 sampleDB = (none, sampleDB)
      ∧ (badLangInput.original_language = some "xx" ∧ parseLang "xx" = none)
      ∧ registerVideo badLangInput 700 sampleDB = (none, sampleDB) :=
  ⟨by decide,
   registerVideo_rejects_invalid badSizeInput 700 sampleDB (Or.inl (by decide)),
   ⟨by decide, by decide⟩,
   registerVideo_rejects_invalid badLangInput 700 sampleDB
     (Or.inr (Or.inr ⟨"xx", by decide, by decide⟩))⟩

/-- C8: `getVideos` returns all stored videos sorted descending by
`uploaded_at`; `getAllTranslations` returns the joined translations sorted
descending by `created_at`; `getTranslationsByVideo` returns exactly the
translations of the requested video sorted descending by `created_at`.
Permutation statements hold for any insertion order, ties included. -/
theorem query_ordering (db : DB) (video_id : Nat) :
    (getVideos db).Perm db.videos
      ∧ List.Sorted videoDesc (getVideos db)
      ∧ List.Sorted twvDesc (getAllTranslations db)
      ∧ (getAllTranslations db).Perm (db.translations.filterMap (joinWithVideo db))
      ∧ (getTranslationsByVideo video_id db).Perm
          (db.translations.filter (fun t => decide (t.video_id = video_id)))
      ∧ List.Sorted transDesc (getTranslationsByVideo video_id db) := by
  refine ⟨List.perm_insertionSort _ _, List.sorted_insertionSort _ _, ?_, ?_,
    List.perm_insertionSort _ _, List.sorted_insertionSort _ _⟩
  · have hs := List.sorted_insertionSort transDesc db.translations
    rw [List.Sorted] at hs
    rw [getAllTranslations, List.Sorted, List.pairwise_filterMap]
    refine hs.imp ?_
    intro a b hab x hx y hy
    have hxa := (joinWithVideo_eq_some (Option.mem_def.mp hx)).1
    have hyb := (joinWithVideo_eq_some (Option.mem_def.mp hy)).1
    show y.created_at ≤ x.created_at
    rw [hxa, hyb]
    exact hab
  · rw [getAllTranslations]
    exact (List.perm_insertionSort transDesc db.translations).filterMap _

/-- C10: every joined record returned by `getAllTranslations` or
`getTranslationById` embeds the owning video (`video.id = video_id`), and a
translation whose `video_id` matches no stored video is silently dropped by the
inner join: it never appears in `getAllTranslations`, and `getTranslationById`
on its id returns `none` rather than an error. -/
theorem join_video_integrity (db : DB) :
    (∀ r ∈ getAllTranslations db, r.video.id = r.video_id)
      ∧ (∀ t ∈ db.translations, (∀ v ∈ db.videos, v.id ≠ t.video_id) →
          ∀ r ∈ getAllTranslations db, r.toTranslation ≠ t)
      ∧ (∀ i : Nat, ∀ r : TranslationWithVideo,
          getTranslationById i db = some r → r.video.id = r.video_id)
      ∧ (∀ i : Nat, ∀ t : Translation,
          db.translations.find? (fun u => decide (u.id = i)) = some t →
          (∀ v ∈ db.videos, v.id ≠ t.video_id) → getTranslationById i db = none) := by
  refine ⟨?_, ?_, ?_, ?_⟩
  · intro r hr
    rw [getAllTranslations] at hr
    obtain ⟨a, _, hja⟩ := List.mem_filterMap.mp hr
    obtain ⟨h1, h2, _⟩ := joinWithVideo_eq_some hja
    show r.video.id = r.toTranslation.video_id
    rw [h1, h2]
  · intro t _ hno r hr heq
    rw [getAllTranslations] at hr
    obtain ⟨a, _, hja⟩ := List.mem_filterMap.mp hr
    have h1 := (joinWithVideo_eq_some hja).1
    have hat : a = t := h1.symm.trans heq
    subst hat
    rw [joinWithVideo_eq_none hno] at hja
    cases hja
  · intro i r hr
    rw [getTranslationById] at hr
    obtain ⟨t, _, hjt⟩ := Option.bind_eq_some.mp hr
    obtain ⟨h1, h2, _⟩ := joinWithVideo_eq_some hjt
    show r.video.id = r.toTranslation.video_id
    rw [h1, h2]
  · intro i t hft hno
    rw [getTranslationById, hft]
    simp only [Option.some_bind]
    exact joinWithVideo_eq_none hno

/-- C10 witness: in the database holding an orphan translation (id 2, video id
9, no such video), `getTranslationById 2` returns `none`, while the well-joined
translation id 1 comes back embedding its owning video. -/
theorem join_video_integrity_witness :
    (orphanDB.translations.find? (fun u => decide (u.id = 2)) = some orphanTranslation)
      ∧ getTranslationById 2 orphanDB = none
      ∧ getTranslationById 1 orphanDB
          = some { toTranslation := sampleTranslation, video := sampleVideo }
      ∧ ({ toTranslation := sampleTranslation, video := sampleVideo } :
            TranslationWithVideo).video.id
          = ({ toTranslation := sampleTranslation, video := sampleVideo } :
            TranslationWithVideo).video_id :=
  ⟨by decide,
   (join_video_integrity orphanDB).2.2.2 2 orphanTranslation (by decide) (by decide),
   by decide,
   (join_video_integrity orphanDB).2.2.1 1 ⟨sampleTranslation, sampleVideo⟩ (by decide)⟩
